import Mathlib

/-!
Verification development for the ai-email-browser-agent repository.

The Python sources under src/ are shallowly embedded below:
pure computations become Lean functions, Python dicts are modelled by the
fields the code actually reads (plus an explicit association list where the
whole dict value matters), Python optional strings become `Option String`,
and Python truthiness tests on them are made explicit.  External
collaborators (the LLM chain, the browser agent, SMTP transport) are
abstracted as function parameters or `Except` values, exactly at the
boundary where the embedded code consumes their results.
-/

/-- Python truthiness of an optional string: `None` and the empty string are
falsy, every other string is truthy.  Models `if x:` on an `Optional[str]`. -/
def pyTruthyStr : Option String → Bool
  | none => false
  | some s => !s.isEmpty

/-- Python truthiness of an optional list of strings: `None` and `[]` are
falsy.  Models `if state.clarification_questions:` and similar tests. -/
def pyTruthyList : Option (List String) → Bool
  | none => false
  | some l => !l.isEmpty

/-- Python `str.startswith`, modelled on the underlying character lists. -/
def pyStartswith (s p : String) : Bool :=
  p.data.isPrefixOf s.data

/- ===================== email_sender.py ===================== -/

/-- Header assembly of `EmailSender.send_email` (src/src/email_sender.py,
lines 61-75): the headers attached to the outgoing MIME message, in order.
`In-Reply-To` is set when `in_reply_to` is truthy; `References` is set to
`references` when truthy, else falls back to `in_reply_to` when that is
truthy.  SMTP transport and body parts are outside the claims and are not
modelled. -/
def send_email_headers (sender recipient subject : String)
    (in_reply_to references : Option String) : List (String × String) :=
  let base := [("From", sender), ("To", recipient), ("Subject", subject)]
  let base :=
    if pyTruthyStr in_reply_to then
      base ++ [("In-Reply-To", in_reply_to.getD "")]
    else base
  if pyTruthyStr references then
    base ++ [("References", references.getD "")]
  else if pyTruthyStr in_reply_to then
    base ++ [("References", in_reply_to.getD "")]
  else base

/-- Subject rule of `EmailSender.send_clarification_email`
(src/src/email_sender.py, lines 140-146): a fixed label for a fresh thread;
for a reply, `"Re: "` is prepended only when the subject does not already
start with `"Re:"`. -/
def clarification_subject (in_reply_to : Option String) (subject : String) :
    String :=
  if !pyTruthyStr in_reply_to then
    "Clarification needed: " ++ subject
  else
    if !pyStartswith subject "Re:" then "Re: " ++ subject else subject

/-- Subject rule of `EmailSender.send_completion_email`
(src/src/email_sender.py, lines 204-210): same shape as the clarification
rule with the `"Completed: "` label. -/
def completion_subject (in_reply_to : Option String) (subject : String) :
    String :=
  if !pyTruthyStr in_reply_to then
    "Completed: " ++ subject
  else
    if !pyStartswith subject "Re:" then "Re: " ++ subject else subject

/- ===================== theorems: C7, C8 ===================== -/

lemma pyStartswith_re_append (s : String) :
    pyStartswith ("Re: " ++ s) "Re:" = true := by
  show List.isPrefixOf "Re:".data ("Re: " ++ s).data = true
  have h : ("Re: " ++ s).data = "Re: ".data ++ s.data := rfl
  rw [h]
  show List.isPrefixOf ['R', 'e', ':']
      (['R', 'e', ':', ' '] ++ s.data) = true
  simp [List.isPrefixOf]

/-- C7: the "Re:" reply-subject rule is idempotent for both the
clarification and the completion email: in reply mode (truthy
`in_reply_to`), applying the rule twice yields the same subject as applying
it once, so no "Re: Re:" accumulates. -/
theorem re_rule_idempotent (m subject : String) (hm : pyTruthyStr (some m) = true) :
    clarification_subject (some m) (clarification_subject (some m) subject) =
      clarification_subject (some m) subject ∧
    completion_subject (some m) (completion_subject (some m) subject) =
      completion_subject (some m) subject := by
  constructor <;>
  · simp only [clarification_subject, completion_subject, hm, Bool.not_true,
      Bool.false_eq_true, if_false]
    by_cases h : pyStartswith subject "Re:" = true
    · simp [h]
    · simp [h, pyStartswith_re_append]

/-- C7 witness: the rule applied twice at a concrete reply subject equals one
application. -/
theorem re_rule_idempotent_witness :
    clarification_subject (some "<id@x>")
        (clarification_subject (some "<id@x>") "hello") =
      clarification_subject (some "<id@x>") "hello" ∧
    completion_subject (some "<id@x>")
        (completion_subject (some "<id@x>") "hello") =
      completion_subject (some "<id@x>") "hello" :=
  re_rule_idempotent "<id@x>" "hello" (by decide)

/-- C8: the dispatched reply's `References` header is the stored references
chain when that is truthy (non-empty), otherwise it falls back to the
`In-Reply-To` value; in particular a reply to an inbound message with
`in_reply_to = "A"` and no references carries `References = "A"`. -/
theorem references_header_rule (sender recipient subject : String)
    (irt refs : Option String) :
    (pyTruthyStr refs = true →
      (send_email_headers sender recipient subject irt refs).lookup
          "References" = some (refs.getD "")) ∧
    (pyTruthyStr refs = false → pyTruthyStr irt = true →
      (send_email_headers sender recipient subject irt refs).lookup
          "References" = some (irt.getD "")) ∧
    (send_email_headers sender recipient subject (some "A") none).lookup
        "References" = some "A" := by
  refine ⟨?_, ?_, ?_⟩
  · intro h
    by_cases hi : pyTruthyStr irt = true <;>
      simp [send_email_headers, h, hi, List.lookup]
  · intro h hi
    simp [send_email_headers, h, hi, List.lookup]
  · simp [send_email_headers, pyTruthyStr, List.lookup]

/-- C8 witness: concrete instantiation with a truthy references chain. -/
theorem references_header_rule_witness :
    (send_email_headers "me@x" "you@x" "s" (some "A") (some "B")).lookup
        "References" = some "B" :=
  (references_header_rule "me@x" "you@x" "s" (some "A") (some "B")).1
    (by decide)

/- ===================== query_engine.py ===================== -/

/-- Structured task details extracted from a query
(src/src/query_engine.py, class `TaskDetails`). -/
structure TaskDetails where
  website : String
  action_type : String
  target : Option String := none
  additional_context : Option (List (String × String)) := none
deriving DecidableEq

/-- Result schema of query interpretation
(src/src/query_engine.py, class `QueryInterpretation`). -/
structure QueryInterpretation where
  task_type : String
  requires_clarification : Bool
  clarification_questions : Option (List String) := none
  task_details : TaskDetails
deriving DecidableEq

/-- `QueryUnderstanding.interpret_query` (src/src/query_engine.py, lines
99-119).  The LLM chain invocation plus the pydantic output parse is the
external collaborator; it is abstracted as an `Except` value: `Except.error`
is the case in which `chain.arun` or `parser.parse` raised.  The source's
`try`/`except` becomes the match: on success the parsed interpretation is
returned, on any exception the hard-coded fallback is returned, so the
function is total and no exception propagates. -/
def interpret_query (llmParse : Except String QueryInterpretation) :
    QueryInterpretation :=
  match llmParse with
  | .ok interpretation => interpretation
  | .error _ =>
      { task_type := "unknown"
        requires_clarification := true
        clarification_questions :=
          some ["Could you please provide more details about what you\x27d like me to do?"]
        task_details := { website := "", action_type := "unknown" } }

/- ===================== task_executor.py ===================== -/

/-- The execution-result mapping returned by the execution collaborator, as
consumed by `TaskExecutor.handle_task_with_confirmation`: the dict keys the
code reads (`needs_confirmation` via `.get`, `confirmation_options` via
`.get(..., [])`) are explicit fields, every other dict entry lives in
`data`. -/
structure ResultsMap where
  needs_confirmation : Bool := false
  confirmation_options : List String := []
  data : List (String × String) := []
deriving DecidableEq

/-- The `(success, results, action_log)` triple returned by
`TaskExecutor.execute_task`. -/
structure ExecOutcome where
  success : Bool
  results : ResultsMap
  actions : List String
deriving DecidableEq

/-- Additional-context mapping passed to the executor (a Python dict from
string keys to string values). -/
abbrev Ctx := List (String × String)

/-- Python dict assignment `d[k] = v`: replace the value when the key is
present, append otherwise. -/
def dictSet (d : Ctx) (k v : String) : Ctx :=
  if d.any (fun p => p.1 == k) then
    d.map (fun p => if p.1 == k then (k, v) else p)
  else d ++ [(k, v)]

/-- Abstract execution collaborator: `TaskExecutor.execute_task` drives the
external browser agent, so for the confirmation sub-protocol it is a
function parameter from task description and optional context to an
outcome. -/
def Exec := String → Option Ctx → ExecOutcome

/-- Abstract confirmation channel: maps the option descriptors to a selected
option, or `none`/the empty string when no selection is obtained. -/
def Callback := List String → Option String

/-- `TaskExecutor.handle_task_with_confirmation` (src/src/task_executor.py,
lines 95-140): run the task once; if it succeeded and the results request
confirmation, obtain a selection from the callback; when the selection is
truthy, re-run the task once with the confirmation appended to the task text
and merged into the context, returning that second outcome directly;
otherwise return the first outcome unchanged. -/
def handle_task_with_confirmation (ex : Exec) (cb : Callback)
    (task_description : String) (additional_context : Option Ctx) :
    ExecOutcome :=
  let first := ex task_description additional_context
  if first.success && first.results.needs_confirmation then
    let options := first.results.confirmation_options
    let confirmation_result := cb options
    if pyTruthyStr confirmation_result then
      let choice := confirmation_result.getD ""
      let updated_context :=
        dictSet (additional_context.getD []) "user_confirmation" choice
      let continue_task :=
        task_description ++ "\n\nConfirmation received: " ++ choice
      ex continue_task (some updated_context)
    else first
  else first

/-- Number of invocations of the execution collaborator performed by
`handle_task_with_confirmation`, following the same branches: one for the
initial run, plus one more exactly when the retry branch is taken. -/
def handleTWCExecCalls (ex : Exec) (cb : Callback)
    (task_description : String) (additional_context : Option Ctx) : Nat :=
  let first := ex task_description additional_context
  if first.success && first.results.needs_confirmation then
    if pyTruthyStr (cb first.results.confirmation_options) then 2 else 1
  else 1

/- ===================== theorems: C6, C2, C3 ===================== -/

/-- C6: whenever the LLM call or output parsing raises, `interpret_query`
still returns a well-formed interpretation with
`requires_clarification = true` and a non-empty list of generic
clarification questions; being a total function of the collaborator's
outcome, it never propagates the exception. -/
theorem interpret_query_fallback (e : String) :
    (interpret_query (Except.error e)).requires_clarification = true ∧
    ∃ q qs, (interpret_query (Except.error e)).clarification_questions =
      some (q :: qs) := by
  refine ⟨rfl, ?_⟩
  exact ⟨_, _, rfl⟩

/-- C2: when the first execution succeeds requesting confirmation and the
callback yields a truthy selection, the sub-protocol invokes the execution
collaborator exactly twice, the second time with the confirmed choice merged
into the task text and context, and returns that second outcome — even if
the second execution again reports `needs_confirmation`. -/
theorem confirmation_single_retry (ex : Exec) (cb : Callback)
    (task : String) (ctx : Option Ctx)
    (hs : (ex task ctx).success = true)
    (hc : (ex task ctx).results.needs_confirmation = true)
    (ht : pyTruthyStr (cb (ex task ctx).results.confirmation_options) = true) :
    handleTWCExecCalls ex cb task ctx = 2 ∧
    handle_task_with_confirmation ex cb task ctx =
      ex (task ++ "\n\nConfirmation received: " ++
            (cb (ex task ctx).results.confirmation_options).getD "")
        (some (dictSet (ctx.getD []) "user_confirmation"
            ((cb (ex task ctx).results.confirmation_options).getD ""))) := by
  constructor
  · simp [handleTWCExecCalls, hs, hc, ht]
  · simp [handle_task_with_confirmation, hs, hc, ht]

/-- Executor used in the witnesses: it always succeeds and always requests
confirmation (the spec's "simulated execution that always requests
confirmation"). -/
def alwaysConfirmExec : Exec := fun _ _ =>
  { success := true
    results := { needs_confirmation := true
                 confirmation_options := ["option 1", "option 2"] }
    actions := ["step 1"] }

/-- Callback used in the C2 witness: always selects option 1. -/
def pickFirstCallback : Callback := fun _ => some "option 1"

/-- C2 witness: with the always-confirming executor and a selecting
callback, the execution collaborator is invoked exactly twice. -/
theorem confirmation_single_retry_witness :
    handleTWCExecCalls alwaysConfirmExec pickFirstCallback "do it" none = 2 :=
  (confirmation_single_retry alwaysConfirmExec pickFirstCallback "do it" none
    rfl rfl rfl).1

/-- Callback that never yields a selection. -/
def noneCallback : Callback := fun _ => none

/-- C3 counterexample: with an execution that succeeds requesting
confirmation and a callback returning no selection,
`handle_task_with_confirmation` returns the first outcome unchanged with
`success = true` and no synthetic error entry — refuting the claim that the
outcome is a failure carrying "confirmation not provided". -/
theorem confirmation_absence_counterexample :
    (handle_task_with_confirmation alwaysConfirmExec noneCallback "do it"
        none).success = true ∧
    (handle_task_with_confirmation alwaysConfirmExec noneCallback "do it"
        none).results.data = [] := by
  constructor <;> rfl

/-- C3 amended: when execution reports `needs_confirmation` and the callback
returns no truthy selection, `handle_task_with_confirmation` returns the
first execution's outcome unchanged (in particular `success` stays `true`);
absence of confirmation is not converted into a failure. -/
theorem confirmation_absence_returns_original (ex : Exec) (cb : Callback)
    (task : String) (ctx : Option Ctx)
    (ht : pyTruthyStr (cb (ex task ctx).results.confirmation_options) = false) :
    handle_task_with_confirmation ex cb task ctx = ex task ctx := by
  by_cases hb : ((ex task ctx).success &&
      (ex task ctx).results.needs_confirmation) = true
  · simp [handle_task_with_confirmation, hb, ht]
  · simp [handle_task_with_confirmation, hb]

/-- C3 amended witness: concrete instantiation with the always-confirming
executor and the selection-less callback. -/
theorem confirmation_absence_returns_original_witness :
    handle_task_with_confirmation alwaysConfirmExec noneCallback "do it"
        none = alwaysConfirmExec "do it" none :=
  confirmation_absence_returns_original alwaysConfirmExec noneCallback
    "do it" none rfl

/- ===================== workflows/agent_workflow.py ===================== -/

/-- A conversation-history entry: LangChain `HumanMessage` / `AIMessage`. -/
inductive Msg where
  | human (content : String)
  | ai (content : String)
deriving DecidableEq

/-- The `browser_state` dict, modelled by the one key the workflow reads
(`state.browser_state.get("executed", False)`). -/
structure BrowserSt where
  executed : Bool
deriving DecidableEq

/-- The `results` dict written by `handle_execution_results`
(`{"success": ..., "summary": ..., "details": ...}`) and read by
`prepare_report`. -/
structure ResultsD where
  success : Bool
  summary : String
  details : String
deriving DecidableEq

/-- The `task_details` dict, modelled by the one key the placeholder
interpretation writes (`{"interpreted": True}`). -/
structure TaskD where
  interpreted : Bool
deriving DecidableEq

/-- `AgentState` (src/src/workflows/agent_workflow.py, lines 21-42), with
the pydantic defaults.  `email_data` is an untouched mapping.  Note on the
source's update idiom: the node functions rebuild the state with
`AgentState(**state.model_dump(), field=...)`; that constructor call is
modelled as a record update with the overridden fields (as written the
Python call would raise `TypeError` because `model_dump()` already contains
the overridden keys — that literal behaviour is modelled separately for the
`run` error handler below). -/
structure AgentState where
  email_data : List (String × String)
  conversation_history : List Msg := []
  task : String
  task_details : Option TaskD := none
  needs_clarification : Bool := false
  clarification_questions : Option (List String) := none
  browser_state : Option BrowserSt := none
  action_log : List String := []
  completed : Bool := false
  results : Option ResultsD := none
  error : Option String := none
deriving DecidableEq

/-- Node `analyze_task` (lines 110-141): when `task_details` is unset,
store the placeholder interpretation and keep `needs_clarification` as it
was; otherwise return the state unchanged.  This is the intended field
update only, used for the routing-structure analysis: the source's rebuild
call `AgentState(**state.model_dump(), task_details=...,
needs_clarification=...)` in fact raises `TypeError` on the duplicate
keywords — that faithful error-path semantics is `analyze_taskE` below. -/
def analyze_task (s : AgentState) : AgentState :=
  match s.task_details with
  | none => { s with task_details := some { interpreted := true } }
  | some _ => s

/-- Node `request_clarification` (lines 143-173): when
`clarification_questions` is truthy (a non-empty list), append the question
text to the conversation history and clear `needs_clarification`; otherwise
return the state unchanged. -/
def request_clarification (s : AgentState) : AgentState :=
  if pyTruthyList s.clarification_questions then
    let qs := s.clarification_questions.getD []
    let question_text := "I need some clarification:\n" ++
      String.intercalate "\n" (qs.map (fun q => "- " ++ q))
    { s with
        conversation_history := s.conversation_history ++ [.ai question_text]
        needs_clarification := false }
  else s

/-- Node `execute_task` (lines 175-201): store the placeholder browser
state, action log and the completed flag.  This is the intended field
update only: the source's rebuild call `AgentState(**state.model_dump(),
browser_state=..., action_log=..., completed=True)` in fact always raises
`TypeError` on the duplicate keywords — that faithful error-path semantics
is `execute_taskE` below. -/
def execute_task (s : AgentState) : AgentState :=
  { s with
      browser_state := some { executed := true }
      action_log := ["Opened browser", "Performed action", "Completed task"]
      completed := true }

/-- Node `handle_execution_results` (lines 203-235): when the browser state
is truthy and reports `executed`, store a successful result; otherwise set
`needs_clarification` with a derived question and record the error. -/
def handle_execution_results (s : AgentState) : AgentState :=
  if (match s.browser_state with | some b => b.executed | none => false) then
    { s with
        results := some
          { success := true
            summary := "Task completed successfully"
            details := "Browser automation task was executed as requested." } }
  else
    { s with
        needs_clarification := true
        clarification_questions :=
          some ["Could you provide more details about the task?"]
        error := some "Failed to execute the task" }

/-- Node `prepare_report` (lines 237-259): append the completion report to
the conversation history.  (`state.results.get` is taken on the stored
summary; with `results = None` the Python line would raise, a case the
graph's routing never produces.) -/
def prepare_report (s : AgentState) : AgentState :=
  let summary := match s.results with | some r => r.summary | none => ""
  { s with
      conversation_history := s.conversation_history ++
        [.ai ("Task completed! Here\x27s a summary:\n\n" ++ summary)] }

/-- Routing helper `is_execution_complete` (lines 275-285):
`state.completed and not state.needs_clarification`. -/
def is_execution_complete (s : AgentState) : Bool :=
  s.completed && !s.needs_clarification

/-- The graph's node set (`_build_workflow_graph`, lines 56-106); `done` is
the `END` vertex. -/
inductive Node where
  | analyze_task
  | request_clarification
  | execute_task
  | handle_execution_results
  | prepare_report
  | done
deriving DecidableEq

/-- Execute one node's body. -/
def runNode : Node → AgentState → AgentState
  | .analyze_task, s => analyze_task s
  | .request_clarification, s => request_clarification s
  | .execute_task, s => execute_task s
  | .handle_execution_results, s => handle_execution_results s
  | .prepare_report, s => prepare_report s
  | .done, s => s

/-- The graph's edges (`_build_workflow_graph`, lines 73-104), evaluated on
the state the node just produced: from `analyze_task` the conditional on
`needs_clarification`; `request_clarification → analyze_task`;
`execute_task → handle_execution_results`; from `handle_execution_results`
the conditional on `is_execution_complete`; `prepare_report → END`. -/
def route : Node → AgentState → Node
  | .analyze_task, s =>
      if s.needs_clarification then .request_clarification else .execute_task
  | .request_clarification, _ => .analyze_task
  | .execute_task, _ => .handle_execution_results
  | .handle_execution_results, s =>
      if is_execution_complete s then .prepare_report
      else .request_clarification
  | .prepare_report, _ => .done
  | .done, _ => .done

/-- One step of the compiled graph: run the current node, then follow its
outgoing edge on the updated state. -/
def stepConfig (c : Node × AgentState) : Node × AgentState :=
  let s := runNode c.1 c.2
  (route c.1 s, s)

/-- Configurations reachable from a configuration by graph steps. -/
inductive Reachable : (Node × AgentState) → (Node × AgentState) → Prop where
  | refl (c : Node × AgentState) : Reachable c c
  | step {a b : Node × AgentState} : Reachable a b → Reachable a (stepConfig b)

/-- Field names of `AgentState`, as returned by
`initial_state.model_dump()` in `run` (every pydantic field is a key of the
dump). -/
def agentStateFields : List String :=
  ["email_data", "conversation_history", "task", "task_details",
   "needs_clarification", "clarification_questions", "browser_state",
   "action_log", "completed", "results", "error"]

/-- Python call semantics for `AgentState(**dump, k=v, ...)`: when any
explicitly named keyword is already a key of the unpacked mapping, the call
raises `TypeError` before the constructor body runs; otherwise it
succeeds. -/
def callWithKwargs (dumpKeys explicitKeys : List String) :
    Except String Unit :=
  match explicitKeys.find? (fun k => dumpKeys.contains k) with
  | some k =>
      .error ("TypeError: got multiple values for keyword argument " ++ k)
  | none => .ok ()

/-- The `except` branch of `AgentWorkflow.run` (lines 305-311): it evaluates
`AgentState(**initial_state.model_dump(), error=str(e))`.  When that call
raises, the raised exception is the branch's outcome (`Except.error`);
otherwise the branch returns the rebuilt state, i.e. the initial state with
the error message stored. -/
def runExceptBranch (initial : AgentState) (msg : String) :
    Except String AgentState :=
  match callWithKwargs agentStateFields ["error"] with
  | .error e => .error e
  | .ok _ => .ok { initial with error := some msg }

/- ===================== theorems: C1, C4, C9 ===================== -/

/-- A conversation awaiting clarification: `needs_clarification` set with a
pending question, as produced by an ambiguous inbound task. -/
def c1State : AgentState :=
  { email_data := [("message_id", "<m1@x>")]
    task := "apply to the job"
    needs_clarification := true
    clarification_questions := some ["Which job title?"] }

/-- C1: evaluated at a state awaiting clarification, one step of the graph
from the `request_clarification` node re-enters `analyze_task` immediately
and clears `needs_clarification`, although no inbound reply has arrived :
the run advances past the clarification request within the same run instead
of suspending and returning control (the hard edge
`request_clarification → analyze_task` and the node's own flag toggle). -/
theorem clarification_loopback_bug :
    (stepConfig (.request_clarification, c1State)).1 = .analyze_task ∧
    (stepConfig (.request_clarification, c1State)).2.needs_clarification
      = false := by
  constructor <;> rfl

/-- Spec-side reading of "s.result.success holds": the stored result is
present and reports success.  Stated from the claim's words, for comparison
with the code's `is_execution_complete`. -/
def specResultSuccess (s : AgentState) : Bool :=
  match s.results with
  | some r => r.success
  | none => false

/-- A state whose execution is flagged completed but whose stored result
reports failure. -/
def c4State : AgentState :=
  { email_data := []
    task := "t"
    completed := true
    results := some { success := false, summary := "", details := "" } }

/-- C4 counterexample: at `c4State` the routing predicate returns `true`
although the stored result does not report success, refuting the claimed
equivalence with `s.result.success ∧ ¬s.needs_clarification`. -/
theorem is_execution_complete_counterexample :
    ¬ (is_execution_complete c4State = true ↔
        (specResultSuccess c4State = true ∧
          c4State.needs_clarification = false)) := by
  decide

/-- C4 amended: `is_execution_complete(s)` returns true if and only if the
`completed` flag is set and `needs_clarification` is false — the code reads
the boolean `completed` field, not the stored result's `success`. -/
theorem is_execution_complete_iff (s : AgentState) :
    is_execution_complete s = true ↔
      (s.completed = true ∧ s.needs_clarification = false) := by
  simp [is_execution_complete, Bool.and_eq_true, Bool.not_eq_true']

/-- C9: the `except` handler of `AgentWorkflow.run` itself raises: since
`initial_state.model_dump()` already contains the key `error`, the rebuild
call `AgentState(**initial_state.model_dump(), error=str(e))` raises
`TypeError`, so an internal exception during a run propagates to the caller
instead of being captured in the returned state's error field. -/
theorem run_error_capture_raises (initial : AgentState) (msg : String) :
    runExceptBranch initial msg =
      Except.error
        ("TypeError: got multiple values for keyword argument " ++ "error")
      := rfl

/- ===================== theorems: C5 ===================== -/

lemma reach_terminal_no_clarification (s0 : AgentState)
    (c : Node × AgentState) (h : Reachable (.analyze_task, s0) c) :
    (c.1 = .prepare_report ∨ c.1 = .done) →
      c.2.needs_clarification = false := by
  induction h with
  | refl =>
      intro hc
      rcases hc with h1 | h1 <;> simp at h1
  | step hr ih =>
      rename_i b
      obtain ⟨n, s⟩ := b
      intro hc
      cases n with
      | analyze_task =>
          rcases hc with h1 | h1 <;>
            by_cases hn :
              (runNode Node.analyze_task s).needs_clarification = true <;>
            simp [stepConfig, route, hn] at h1
      | request_clarification =>
          rcases hc with h1 | h1 <;> simp [stepConfig, route] at h1
      | execute_task =>
          rcases hc with h1 | h1 <;> simp [stepConfig, route] at h1
      | handle_execution_results =>
          by_cases hic :
              is_execution_complete
                (runNode Node.handle_execution_results s) = true
          · have h2 :
                (runNode Node.handle_execution_results s).completed = true ∧
                (runNode Node.handle_execution_results
                    s).needs_clarification = false := by
              simpa [is_execution_complete, Bool.and_eq_true,
                Bool.not_eq_true'] using hic
            simpa [stepConfig] using h2.2
          · rcases hc with h1 | h1 <;> simp [stepConfig, route, hic] at h1
      | prepare_report =>
          have hs : s.needs_clarification = false := ih (Or.inl rfl)
          simpa [stepConfig, runNode, prepare_report] using hs
      | done =>
          have hs : s.needs_clarification = false := ih (Or.inr rfl)
          simpa [stepConfig, runNode] using hs

/-- C5: along every graph execution started at the entry node, a
configuration whose state still needs clarification is never the terminal
(`END`) configuration: the workflow completes only from states in which
`needs_clarification` is false. -/
theorem needs_clarification_not_completed (s0 : AgentState)
    (n : Node) (s : AgentState)
    (h : Reachable (.analyze_task, s0) (n, s))
    (hn : s.needs_clarification = true) : n ≠ .done := by
  intro hd
  subst hd
  have h2 : s.needs_clarification = false :=
    reach_terminal_no_clarification s0 (.done, s) h (Or.inr rfl)
  rw [h2] at hn
  exact Bool.false_ne_true hn

/-- Fresh state used in the C5 witness. -/
def c5State : AgentState :=
  { email_data := []
    task := "t"
    needs_clarification := true
    clarification_questions := some ["Which job title?"] }

/-- C5 witness: the entry configuration itself, with clarification pending,
is reachable and hence not the terminal node. -/
theorem needs_clarification_not_completed_witness :
    Node.analyze_task ≠ Node.done :=
  needs_clarification_not_completed c5State .analyze_task c5State
    (Reachable.refl _) rfl

/- ===================== theorems: C10 ===================== -/

/-- Faithful semantics of `analyze_task` including its error path: when
`task_details` is unset the node executes the rebuild
`AgentState(**state.model_dump(), task_details=...,
needs_clarification=...)` (lines 133-138), which raises `TypeError` because
`model_dump()` already contains both overridden keys; otherwise the state
is returned unchanged. -/
def analyze_taskE (s : AgentState) : Except String AgentState :=
  match s.task_details with
  | none =>
      match callWithKwargs agentStateFields
          ["task_details", "needs_clarification"] with
      | .error e => .error e
      | .ok _ => .ok { s with task_details := some { interpreted := true } }
  | some _ => .ok s

/-- Faithful semantics of `request_clarification`: the node mutates the
state in place (no rebuild constructor), so it cannot raise. -/
def request_clarificationE (s : AgentState) : Except String AgentState :=
  .ok (request_clarification s)

/-- Faithful semantics of `execute_task` including its error path: the node
always executes the rebuild `AgentState(**state.model_dump(),
browser_state=..., action_log=..., completed=True)` (lines 195-201), which
raises `TypeError` for the same duplicate-keyword reason. -/
def execute_taskE (s : AgentState) : Except String AgentState :=
  match callWithKwargs agentStateFields
      ["browser_state", "action_log", "completed"] with
  | .error e => .error e
  | .ok _ => .ok (execute_task s)

/-- Faithful semantics of `handle_execution_results`: the node mutates the
state in place, so it cannot raise. -/
def handle_execution_resultsE (s : AgentState) : Except String AgentState :=
  .ok (handle_execution_results s)

/-- Faithful semantics of `prepare_report`: with `results = None` the line
`state.results.get("summary", "")` would raise `AttributeError`; otherwise
the node mutates in place and cannot raise. -/
def prepare_reportE (s : AgentState) : Except String AgentState :=
  match s.results with
  | none => .error "AttributeError: NoneType has no attribute get"
  | some _ => .ok (prepare_report s)

/-- Execute one node's body under the faithful error-path semantics. -/
def runNodeE : Node → AgentState → Except String AgentState
  | .analyze_task, s => analyze_taskE s
  | .request_clarification, s => request_clarificationE s
  | .execute_task, s => execute_taskE s
  | .handle_execution_results, s => handle_execution_resultsE s
  | .prepare_report, s => prepare_reportE s
  | .done, s => .ok s

/-- Bounded execution of the graph under the faithful error-path semantics:
the outcome is the final state at `END`, or the first exception a node
raises, paired with the number of `request_clarification` executions;
`none` when the fuel runs out first. -/
def runGraphE (fuel : Nat) (n : Node) (s : AgentState) :
    Option (Except String AgentState × Nat) :=
  match fuel with
  | 0 => none
  | fuel + 1 =>
    if n = .done then some (.ok s, 0)
    else
      match runNodeE n s with
      | .error e => some (.error e, 0)
      | .ok s' =>
        match runGraphE fuel (route n s') s' with
        | none => none
        | some (r, k) =>
            some (r, if n = .request_clarification then k + 1 else k)

/-- Initial state used in the C10 evaluation: clarification pending with a
non-empty question list, so the claim's precondition holds. -/
def c10State : AgentState :=
  { email_data := []
    task := "apply to the job"
    needs_clarification := true
    clarification_questions := some ["Which job title?"] }

/-- State with interpretation already stored, used to exhibit the crash in
`execute_task` (showing the failure is not an artifact of the entry node
alone). -/
def c10ReadyState : AgentState :=
  { email_data := []
    task := "apply to the job"
    task_details := some { interpreted := true } }

/-- C10: under the faithful semantics of the rebuild constructor calls, the
run never reaches `END`: started at the entry node from the
pending-clarification state `c10State` (which satisfies the claim's
precondition), `analyze_task`'s rebuild raises `TypeError` at the very
first node; started from `c10ReadyState`, whose interpretation is already
stored, `execute_task`'s rebuild raises the same way — so no run reaches
its end, against the claimed termination. -/
theorem run_crashes_before_end :
    runGraphE 8 .analyze_task c10State =
      some (Except.error
        ("TypeError: got multiple values for keyword argument "
          ++ "task_details"), 0) ∧
    runGraphE 8 .analyze_task c10ReadyState =
      some (Except.error
        ("TypeError: got multiple values for keyword argument "
          ++ "browser_state"), 0) := by
  constructor <;> rfl
